import Mathlib

/-!
Verification of `pkg/nodebootstrap/utils/metadata.go` (eksctl).

The Go code performs sequential HTTP exchanges against the EC2 instance
metadata service (IMDS): it acquires an IMDSv2 token with a PUT request,
then reads `instance-id` and `instance-life-cycle` with GET requests that
carry the token in a header.  We embed it shallowly: the network is a
function from requests to either a transport error (what `client.Do`
returns) or a response whose body read (`io.ReadAll`) may itself fail.
Every embedded operation also returns the list of requests it issued, in
order, so that claims about which requests are (not) attempted are
statable.  `http.NewRequest` cannot fail on the constant, well-formed
URLs used here, so that error path is not modelled.
-/

namespace Metadata

/-- An HTTP request: method, full URL, and headers (association list). -/
structure HttpRequest where
  method : String
  url : String
  headers : List (String × String)
deriving Repr, DecidableEq

/-- Go error values as this file builds them: either a plain message
(`fmt.Errorf` without `%w`, or a transport error) or a wrapped error
(`fmt.Errorf("<stage>: %w", cause)`). -/
inductive GoError where
  | msg (s : String) : GoError
  | wrap (stage : String) (cause : GoError) : GoError
deriving Repr, DecidableEq

/-- `errors.Unwrap`: recovers the cause of a wrapped error. -/
def GoError.unwrap : GoError → Option GoError
  | .msg _ => none
  | .wrap _ cause => some cause

deriving instance DecidableEq for Except

/-- An HTTP response: status code, and the outcome of reading the body
(`io.ReadAll` may fail, returning an error). -/
structure HttpResponse where
  statusCode : Nat
  body : Except GoError String
deriving Repr, DecidableEq

/-- The network environment: what `client.Do` yields for a request.
`.error` is a transport (network) failure. -/
def Network : Type := HttpRequest → Except GoError HttpResponse

/-- Header lookup on a request's header list (`http.Header.Get`,
specialised to the exact-name case used here). -/
def headerGet (hs : List (String × String)) (k : String) : Option String :=
  (hs.find? (fun p => p.1 == k)).map (fun p => p.2)

/-- Go map assignment `m[k] = v`: replaces the value if the key is
present, otherwise appends the binding. -/
def mapSet (m : List (String × String)) (k v : String) : List (String × String) :=
  if m.any (fun p => p.1 == k) then
    m.map (fun p => if p.1 == k then (k, v) else p)
  else m ++ [(k, v)]

/-- Go map lookup `m[k]`. -/
def mapGet (m : List (String × String)) (k : String) : Option String :=
  (m.find? (fun p => p.1 == k)).map (fun p => p.2)

/-- The token request built by `getIMDSToken`:
`PUT http://169.254.169.254/latest/api/token` with the TTL header. -/
def tokenRequest : HttpRequest :=
  { method := "PUT"
    url := "http://169.254.169.254/latest/api/token"
    headers := [("X-aws-ec2-metadata-token-ttl-seconds", "600")] }

/-- The metadata-read request built by `getMetadata`:
`GET http://169.254.169.254/latest/meta-data/<path>` with the token header. -/
def metadataRequest (token path : String) : HttpRequest :=
  { method := "GET"
    url := "http://169.254.169.254/latest/meta-data/" ++ path
    headers := [("X-aws-ec2-metadata-token", token)] }

/-- `getIMDSToken`: issues the token request; a transport error, a
non-200 status, or a body-read error yields `("", some e)`; otherwise the
body is the token.  Also returns the requests issued. -/
def getIMDSToken (net : Network) : String × Option GoError × List HttpRequest :=
  match net tokenRequest with
  | .error e => ("", some e, [tokenRequest])
  | .ok resp =>
    if resp.statusCode ≠ 200 then
      ("", some (.msg ("failed to get token, status code: " ++ toString resp.statusCode)),
        [tokenRequest])
    else
      match resp.body with
      | .error e => ("", some e, [tokenRequest])
      | .ok token => (token, none, [tokenRequest])

/-- `getMetadata`: issues a metadata read for `path` carrying `token`;
a transport error, a non-200 status, or a body-read error yields
`("", some e)`; otherwise the body is the value. -/
def getMetadata (net : Network) (token path : String) :
    String × Option GoError × List HttpRequest :=
  match net (metadataRequest token path) with
  | .error e => ("", some e, [metadataRequest token path])
  | .ok resp =>
    if resp.statusCode ≠ 200 then
      ("", some (.msg ("failed to get metadata for " ++ path ++ ", status code: "
          ++ toString resp.statusCode)),
        [metadataRequest token path])
    else
      match resp.body with
      | .error e => ("", some e, [metadataRequest token path])
      | .ok data => (data, none, [metadataRequest token path])

/-- `GetEC2InstanceMetadata`: token, then instance-id (fatal on failure,
wrapped), then instance-life-cycle (defaulting to "on-demand" on
failure).  Returns the map (or `none`, Go's nil map, on error), the
error (or `none`), and the requests issued in order. -/
def GetEC2InstanceMetadata (net : Network) :
    Option (List (String × String)) × Option GoError × List HttpRequest :=
  match getIMDSToken net with
  | (_, some e, reqs) => (none, some (.wrap "failed to get IMDS token" e), reqs)
  | (token, none, reqs1) =>
    match getMetadata net token "instance-id" with
    | (_, some e, reqs2) =>
      (none, some (.wrap "failed to get instance ID" e), reqs1 ++ reqs2)
    | (instanceID, none, reqs2) =>
      let metadata := mapSet [] "alpha.eksctl.io/instance-id" instanceID
      match getMetadata net token "instance-life-cycle" with
      | (_, some _, reqs3) =>
        (some (mapSet metadata "node-lifecycle" "on-demand"), none,
          reqs1 ++ reqs2 ++ reqs3)
      | (instanceLifecycle, none, reqs3) =>
        (some (mapSet metadata "node-lifecycle" instanceLifecycle), none,
          reqs1 ++ reqs2 ++ reqs3)

/-- The token request built by the test variant against `serverURL`. -/
def testTokenRequest (serverURL : String) : HttpRequest :=
  { method := "PUT"
    url := serverURL ++ "/latest/api/token"
    headers := [("X-aws-ec2-metadata-token-ttl-seconds", "600")] }

/-- The metadata-read request built by `getMetadataFromURL`. -/
def testMetadataRequest (serverURL token path : String) : HttpRequest :=
  { method := "GET"
    url := serverURL ++ "/latest/meta-data/" ++ path
    headers := [("X-aws-ec2-metadata-token", token)] }

/-- `getMetadataFromURL`: as `getMetadata`, but against `serverURL`. -/
def getMetadataFromURL (net : Network) (token serverURL path : String) :
    String × Option GoError × List HttpRequest :=
  match net (testMetadataRequest serverURL token path) with
  | .error e => ("", some e, [testMetadataRequest serverURL token path])
  | .ok resp =>
    if resp.statusCode ≠ 200 then
      ("", some (.msg ("failed to get metadata for " ++ path ++ ", status code: "
          ++ toString resp.statusCode)),
        [testMetadataRequest serverURL token path])
    else
      match resp.body with
      | .error e => ("", some e, [testMetadataRequest serverURL token path])
      | .ok data => (data, none, [testMetadataRequest serverURL token path])

/-- `testGetEC2InstanceMetadata`: the test variant, with the token
acquisition inlined (its error wrapping differs from the production
helper) and plain output keys `instance-id` / `instance-lifecycle`. -/
def testGetEC2InstanceMetadata (net : Network) (serverURL : String) :
    Option (List (String × String)) × Option GoError × List HttpRequest :=
  let req := testTokenRequest serverURL
  match net req with
  | .error e => (none, some (.wrap "failed to get token" e), [req])
  | .ok resp =>
    if resp.statusCode ≠ 200 then
      (none, some (.msg ("failed to get token, status code: " ++ toString resp.statusCode)),
        [req])
    else
      match resp.body with
      | .error e => (none, some (.wrap "failed to read token" e), [req])
      | .ok token =>
        match getMetadataFromURL net token serverURL "instance-id" with
        | (_, some e, reqs2) =>
          (none, some (.wrap "failed to get instance ID" e), [req] ++ reqs2)
        | (instanceID, none, reqs2) =>
          let metadata := mapSet [] "instance-id" instanceID
          match getMetadataFromURL net token serverURL "instance-life-cycle" with
          | (_, some _, reqs3) =>
            (some (mapSet metadata "instance-lifecycle" "on-demand"), none,
              [req] ++ reqs2 ++ reqs3)
          | (instanceLifecycle, none, reqs3) =>
            (some (mapSet metadata "instance-lifecycle" instanceLifecycle), none,
              [req] ++ reqs2 ++ reqs3)

/-- A `client.Do` outcome that the code treats as a read failure short of
a body-read error: a transport error or a non-200 status. -/
def requestFails (r : Except GoError HttpResponse) : Bool :=
  match r with
  | .error _ => true
  | .ok resp => resp.statusCode != 200

/-! Concrete networks used to witness the theorems, mirroring the mock
servers of the Ginkgo tests. -/

/-- Happy path: token, instance-id and lifecycle all return 200. -/
def netOK : Network := fun r =>
  if r.url == "http://169.254.169.254/latest/api/token" then
    .ok { statusCode := 200, body := .ok "mock-token" }
  else if r.url == "http://169.254.169.254/latest/meta-data/instance-id" then
    .ok { statusCode := 200, body := .ok "i-1234567890abcdef0" }
  else if r.url == "http://169.254.169.254/latest/meta-data/instance-life-cycle" then
    .ok { statusCode := 200, body := .ok "spot" }
  else .ok { statusCode := 404, body := .ok "" }

/-- The token endpoint refuses with 403. -/
def netTokenFail : Network := fun r =>
  if r.url == "http://169.254.169.254/latest/api/token" then
    .ok { statusCode := 403, body := .ok "" }
  else .ok { statusCode := 200, body := .ok "x" }

/-- Token succeeds; instance-id returns 404. -/
def netIdFail : Network := fun r =>
  if r.url == "http://169.254.169.254/latest/api/token" then
    .ok { statusCode := 200, body := .ok "mock-token" }
  else if r.url == "http://169.254.169.254/latest/meta-data/instance-id" then
    .ok { statusCode := 404, body := .ok "" }
  else .ok { statusCode := 200, body := .ok "x" }

/-- Token and instance-id succeed; the lifecycle read returns 404. -/
def netLcFail : Network := fun r =>
  if r.url == "http://169.254.169.254/latest/api/token" then
    .ok { statusCode := 200, body := .ok "mock-token" }
  else if r.url == "http://169.254.169.254/latest/meta-data/instance-id" then
    .ok { statusCode := 200, body := .ok "i-1234567890abcdef0" }
  else .ok { statusCode := 404, body := .ok "" }

/-- The token endpoint returns 200 with an empty body; metadata reads
succeed. -/
def netEmptyTok : Network := fun r =>
  if r.url == "http://169.254.169.254/latest/api/token" then
    .ok { statusCode := 200, body := .ok "" }
  else if r.url == "http://169.254.169.254/latest/meta-data/instance-id" then
    .ok { statusCode := 200, body := .ok "i-1234567890abcdef0" }
  else if r.url == "http://169.254.169.254/latest/meta-data/instance-life-cycle" then
    .ok { statusCode := 200, body := .ok "spot" }
  else .ok { statusCode := 404, body := .ok "" }

/-! Helper lemmas shared by the claim theorems. -/

theorem getIMDSToken_ok (net : Network) (tok : String)
    (h : net tokenRequest = .ok ⟨200, .ok tok⟩) :
    getIMDSToken net = (tok, none, [tokenRequest]) := by
  simp [getIMDSToken, h]

theorem getIMDSToken_fails (net : Network)
    (h : requestFails (net tokenRequest) = true) :
    ∃ e, getIMDSToken net = ("", some e, [tokenRequest]) := by
  unfold requestFails at h
  rcases hnet : net tokenRequest with e | resp
  · exact ⟨e, by simp [getIMDSToken, hnet]⟩
  · rw [hnet] at h
    simp only [bne_iff_ne, ne_eq] at h
    exact ⟨.msg ("failed to get token, status code: " ++ toString resp.statusCode),
      by simp [getIMDSToken, hnet, h]⟩

theorem getMetadata_ok (net : Network) (tok path v : String)
    (h : net (metadataRequest tok path) = .ok ⟨200, .ok v⟩) :
    getMetadata net tok path = (v, none, [metadataRequest tok path]) := by
  simp [getMetadata, h]

theorem getMetadata_fails (net : Network) (tok path : String)
    (h : requestFails (net (metadataRequest tok path)) = true) :
    ∃ e, getMetadata net tok path = ("", some e, [metadataRequest tok path]) := by
  unfold requestFails at h
  rcases hnet : net (metadataRequest tok path) with e | resp
  · exact ⟨e, by simp [getMetadata, hnet]⟩
  · rw [hnet] at h
    simp only [bne_iff_ne, ne_eq] at h
    exact ⟨.msg ("failed to get metadata for " ++ path ++ ", status code: "
        ++ toString resp.statusCode),
      by simp [getMetadata, hnet, h]⟩

theorem getMetadata_trace (net : Network) (tok path : String) :
    (getMetadata net tok path).2.2 = [metadataRequest tok path] := by
  unfold getMetadata
  rcases net (metadataRequest tok path) with e | ⟨code, body⟩
  · rfl
  · by_cases h : code ≠ 200 <;> rcases body with e | s <;> simp [h]

/-! The claim theorems. -/

/-- C1: when the token request, the instance-id read, and the lifecycle
read all return HTTP 200, `GetEC2InstanceMetadata` returns a nil error
and a mapping of exactly two entries: `alpha.eksctl.io/instance-id`
bound to the instance-id response body and `node-lifecycle` bound to the
lifecycle response body. -/
theorem success_returns_two_entry_map (net : Network) (tok iid lc : String)
    (htok : net tokenRequest = .ok ⟨200, .ok tok⟩)
    (hid : net (metadataRequest tok "instance-id") = .ok ⟨200, .ok iid⟩)
    (hlc : net (metadataRequest tok "instance-life-cycle") = .ok ⟨200, .ok lc⟩) :
    (GetEC2InstanceMetadata net).2.1 = none ∧
    (GetEC2InstanceMetadata net).1 =
      some [("alpha.eksctl.io/instance-id", iid), ("node-lifecycle", lc)] := by
  have h1 := getIMDSToken_ok net tok htok
  have h2 := getMetadata_ok net tok "instance-id" iid hid
  have h3 := getMetadata_ok net tok "instance-life-cycle" lc hlc
  simp [GetEC2InstanceMetadata, h1, h2, h3, mapSet]

theorem success_returns_two_entry_map_witness :
    (GetEC2InstanceMetadata netOK).2.1 = none ∧
    (GetEC2InstanceMetadata netOK).1 =
      some [("alpha.eksctl.io/instance-id", "i-1234567890abcdef0"),
        ("node-lifecycle", "spot")] :=
  success_returns_two_entry_map netOK "mock-token" "i-1234567890abcdef0" "spot"
    (by decide) (by decide) (by decide)

/-- C2: when the token request and the instance-id read return 200 but
the lifecycle read fails (transport error or non-200 status), the
function still returns a nil error and the `node-lifecycle` value is the
literal "on-demand". -/
theorem lifecycle_failure_defaults_on_demand (net : Network) (tok iid : String)
    (htok : net tokenRequest = .ok ⟨200, .ok tok⟩)
    (hid : net (metadataRequest tok "instance-id") = .ok ⟨200, .ok iid⟩)
    (hlc : requestFails (net (metadataRequest tok "instance-life-cycle")) = true) :
    (GetEC2InstanceMetadata net).2.1 = none ∧
    (GetEC2InstanceMetadata net).1 =
      some [("alpha.eksctl.io/instance-id", iid), ("node-lifecycle", "on-demand")] := by
  have h1 := getIMDSToken_ok net tok htok
  have h2 := getMetadata_ok net tok "instance-id" iid hid
  obtain ⟨e, h3⟩ := getMetadata_fails net tok "instance-life-cycle" hlc
  simp [GetEC2InstanceMetadata, h1, h2, h3, mapSet]

theorem lifecycle_failure_defaults_on_demand_witness :
    (GetEC2InstanceMetadata netLcFail).2.1 = none ∧
    (GetEC2InstanceMetadata netLcFail).1 =
      some [("alpha.eksctl.io/instance-id", "i-1234567890abcdef0"),
        ("node-lifecycle", "on-demand")] :=
  lifecycle_failure_defaults_on_demand netLcFail "mock-token" "i-1234567890abcdef0"
    (by decide) (by decide) (by decide)

/-- C3: when the token request fails (transport error or non-200
status), `GetEC2InstanceMetadata` returns a non-nil error and the only
request ever issued is the token request: no metadata read is
attempted. -/
theorem token_failure_aborts_without_reads (net : Network)
    (h : requestFails (net tokenRequest) = true) :
    (GetEC2InstanceMetadata net).2.1.isSome = true ∧
    (GetEC2InstanceMetadata net).2.2 = [tokenRequest] := by
  obtain ⟨e, he⟩ := getIMDSToken_fails net h
  simp [GetEC2InstanceMetadata, he]

theorem token_failure_aborts_without_reads_witness :
    (GetEC2InstanceMetadata netTokenFail).2.1.isSome = true ∧
    (GetEC2InstanceMetadata netTokenFail).2.2 = [tokenRequest] :=
  token_failure_aborts_without_reads netTokenFail (by decide)

/-- C4: when the token request returns 200 but the instance-id read
fails (transport error or non-200 status), `GetEC2InstanceMetadata`
returns a non-nil error with a nil map, and the lifecycle read is never
attempted: the trace stops at the instance-id request. -/
theorem instance_id_failure_aborts (net : Network) (tok : String)
    (htok : net tokenRequest = .ok ⟨200, .ok tok⟩)
    (hid : requestFails (net (metadataRequest tok "instance-id")) = true) :
    (GetEC2InstanceMetadata net).1 = none ∧
    (GetEC2InstanceMetadata net).2.1.isSome = true ∧
    (GetEC2InstanceMetadata net).2.2 =
      [tokenRequest, metadataRequest tok "instance-id"] := by
  have h1 := getIMDSToken_ok net tok htok
  obtain ⟨e, h2⟩ := getMetadata_fails net tok "instance-id" hid
  simp [GetEC2InstanceMetadata, h1, h2]

theorem instance_id_failure_aborts_witness :
    (GetEC2InstanceMetadata netIdFail).1 = none ∧
    (GetEC2InstanceMetadata netIdFail).2.1.isSome = true ∧
    (GetEC2InstanceMetadata netIdFail).2.2 =
      [tokenRequest, metadataRequest "mock-token" "instance-id"] :=
  instance_id_failure_aborts netIdFail "mock-token" (by decide) (by decide)

theorem getIMDSToken_trace (net : Network) :
    (getIMDSToken net).2.2 = [tokenRequest] := by
  unfold getIMDSToken
  rcases net tokenRequest with e | ⟨code, body⟩
  · rfl
  · by_cases h : code ≠ 200 <;> rcases body with e | s <;> simp [h]

theorem trace_when_token_ok (net : Network) (tok : String)
    (htok : net tokenRequest = .ok ⟨200, .ok tok⟩) :
    (GetEC2InstanceMetadata net).2.2 = [tokenRequest, metadataRequest tok "instance-id"] ∨
    (GetEC2InstanceMetadata net).2.2 =
      [tokenRequest, metadataRequest tok "instance-id",
        metadataRequest tok "instance-life-cycle"] := by
  have h1 := getIMDSToken_ok net tok htok
  rcases h2 : getMetadata net tok "instance-id" with ⟨iid, e2, reqs2⟩
  have hr2 : reqs2 = [metadataRequest tok "instance-id"] := by
    have h := getMetadata_trace net tok "instance-id"
    rw [h2] at h; exact h
  rcases e2 with _ | e2
  · rcases h3 : getMetadata net tok "instance-life-cycle" with ⟨lc, e3, reqs3⟩
    have hr3 : reqs3 = [metadataRequest tok "instance-life-cycle"] := by
      have h := getMetadata_trace net tok "instance-life-cycle"
      rw [h3] at h; exact h
    rcases e3 with _ | e3 <;>
      exact Or.inr (by simp [GetEC2InstanceMetadata, h1, h2, h3, hr2, hr3])
  · exact Or.inl (by simp [GetEC2InstanceMetadata, h1, h2, hr2])

/-- C5: when the token request succeeds with body `tok`, every other
request issued by `GetEC2InstanceMetadata` (i.e. every metadata read)
carries exactly `tok`, unmodified, in the `X-aws-ec2-metadata-token`
header. -/
theorem metadata_reads_carry_token (net : Network) (tok : String)
    (htok : net tokenRequest = .ok ⟨200, .ok tok⟩) :
    ∀ req ∈ (GetEC2InstanceMetadata net).2.2, req ≠ tokenRequest →
      headerGet req.headers "X-aws-ec2-metadata-token" = some tok := by
  intro req hreq hne
  rcases trace_when_token_ok net tok htok with h | h <;> rw [h] at hreq <;>
    simp only [List.mem_cons, List.not_mem_nil, or_false] at hreq
  · rcases hreq with rfl | rfl
    · exact absurd rfl hne
    · simp [headerGet, metadataRequest]
  · rcases hreq with rfl | rfl | rfl
    · exact absurd rfl hne
    · simp [headerGet, metadataRequest]
    · simp [headerGet, metadataRequest]

theorem metadata_reads_carry_token_witness :
    headerGet (metadataRequest "mock-token" "instance-id").headers
      "X-aws-ec2-metadata-token" = some "mock-token" :=
  metadata_reads_carry_token netOK "mock-token" (by decide)
    (metadataRequest "mock-token" "instance-id") (by decide) (by decide)

/-- C6: `getIMDSToken` issues exactly one request, a PUT to
`http://169.254.169.254/latest/api/token` carrying the TTL header
`X-aws-ec2-metadata-token-ttl-seconds: 600`; a non-200 status yields an
error whose message carries the status code, and a 200 status yields the
full response body as the token with a nil error. -/
theorem getIMDSToken_contract (net : Network) :
    (getIMDSToken net).2.2 = [tokenRequest] ∧
    tokenRequest.method = "PUT" ∧
    tokenRequest.url = "http://169.254.169.254/latest/api/token" ∧
    headerGet tokenRequest.headers "X-aws-ec2-metadata-token-ttl-seconds" = some "600" ∧
    (∀ code body, net tokenRequest = .ok ⟨code, body⟩ → code ≠ 200 →
      (getIMDSToken net).2.1 =
        some (.msg ("failed to get token, status code: " ++ toString code))) ∧
    (∀ tok, net tokenRequest = .ok ⟨200, .ok tok⟩ →
      getIMDSToken net = (tok, none, [tokenRequest])) := by
  refine ⟨getIMDSToken_trace net, rfl, rfl, by decide, ?_, ?_⟩
  · intro code body h hcode
    simp [getIMDSToken, h, hcode]
  · intro tok h
    exact getIMDSToken_ok net tok h

theorem getIMDSToken_contract_witness :
    (getIMDSToken netTokenFail).2.1 =
      some (.msg ("failed to get token, status code: " ++ toString 403)) :=
  (getIMDSToken_contract netTokenFail).2.2.2.2.1 403 (.ok "") (by decide) (by decide)

/-- C7: every error returned by `GetEC2InstanceMetadata` is a wrapped
error naming the stage that failed ("failed to get IMDS token" or
"failed to get instance ID"), and unwrapping it recovers exactly the
underlying cause produced by the failed helper. -/
theorem errors_wrapped_with_stage (net : Network) (e : GoError)
    (h : (GetEC2InstanceMetadata net).2.1 = some e) :
    ∃ cause, GoError.unwrap e = some cause ∧
      ((e = .wrap "failed to get IMDS token" cause ∧
          (getIMDSToken net).2.1 = some cause) ∨
        (e = .wrap "failed to get instance ID" cause ∧
          (getMetadata net (getIMDSToken net).1 "instance-id").2.1 = some cause)) := by
  rcases h1 : getIMDSToken net with ⟨tok, e1, reqs1⟩
  rcases e1 with _ | e1
  · rcases h2 : getMetadata net tok "instance-id" with ⟨iid, e2, reqs2⟩
    rcases e2 with _ | e2
    · rcases h3 : getMetadata net tok "instance-life-cycle" with ⟨lc, e3, reqs3⟩
      rcases e3 with _ | e3 <;> simp [GetEC2InstanceMetadata, h1, h2, h3] at h
    · simp [GetEC2InstanceMetadata, h1, h2] at h
      exact ⟨e2, by simp [← h, GoError.unwrap], Or.inr ⟨h.symm, by simp [h1, h2]⟩⟩
  · simp [GetEC2InstanceMetadata, h1] at h
    exact ⟨e1, by simp [← h, GoError.unwrap], Or.inl ⟨h.symm, by simp [h1]⟩⟩

theorem errors_wrapped_with_stage_witness :
    ∃ cause, GoError.unwrap (GoError.wrap "failed to get IMDS token"
        (.msg "failed to get token, status code: 403")) = some cause ∧
      ((GoError.wrap "failed to get IMDS token"
            (.msg "failed to get token, status code: 403")
          = .wrap "failed to get IMDS token" cause ∧
          (getIMDSToken netTokenFail).2.1 = some cause) ∨
        (GoError.wrap "failed to get IMDS token"
            (.msg "failed to get token, status code: 403")
          = .wrap "failed to get instance ID" cause ∧
          (getMetadata netTokenFail (getIMDSToken netTokenFail).1
            "instance-id").2.1 = some cause)) :=
  errors_wrapped_with_stage netTokenFail
    (GoError.wrap "failed to get IMDS token"
      (.msg "failed to get token, status code: 403")) (by decide)

/-- C8: whenever `GetEC2InstanceMetadata` returns a non-nil error, the
map it returns is nil (`none`): no partially filled map is ever
observable. -/
theorem error_implies_nil_map (net : Network)
    (h : (GetEC2InstanceMetadata net).2.1.isSome = true) :
    (GetEC2InstanceMetadata net).1 = none := by
  rcases h1 : getIMDSToken net with ⟨tok, e1, reqs1⟩
  rcases e1 with _ | e1
  · rcases h2 : getMetadata net tok "instance-id" with ⟨iid, e2, reqs2⟩
    rcases e2 with _ | e2
    · rcases h3 : getMetadata net tok "instance-life-cycle" with ⟨lc, e3, reqs3⟩
      rcases e3 with _ | e3 <;> simp [GetEC2InstanceMetadata, h1, h2, h3] at h
    · simp [GetEC2InstanceMetadata, h1, h2]
  · simp [GetEC2InstanceMetadata, h1]

theorem error_implies_nil_map_witness :
    (GetEC2InstanceMetadata netTokenFail).1 = none :=
  error_implies_nil_map netTokenFail (by decide)

/-- C10: an empty 200 token body is not validated: `getIMDSToken`
returns the empty string with a nil error, and (with the instance-id
read answering 200) `GetEC2InstanceMetadata` proceeds to issue both
metadata reads, each carrying an empty `X-aws-ec2-metadata-token`
header, instead of failing early. -/
theorem empty_token_not_validated (net : Network) (iid : String)
    (htok : net tokenRequest = .ok ⟨200, .ok ""⟩)
    (hid : net (metadataRequest "" "instance-id") = .ok ⟨200, .ok iid⟩) :
    getIMDSToken net = ("", none, [tokenRequest]) ∧
    (GetEC2InstanceMetadata net).2.1 = none ∧
    (GetEC2InstanceMetadata net).2.2 =
      [tokenRequest, metadataRequest "" "instance-id",
        metadataRequest "" "instance-life-cycle"] ∧
    headerGet (metadataRequest "" "instance-id").headers
      "X-aws-ec2-metadata-token" = some "" ∧
    headerGet (metadataRequest "" "instance-life-cycle").headers
      "X-aws-ec2-metadata-token" = some "" := by
  have h1 := getIMDSToken_ok net "" htok
  have h2 := getMetadata_ok net "" "instance-id" iid hid
  rcases h3 : getMetadata net "" "instance-life-cycle" with ⟨lc, e3, reqs3⟩
  have hr3 : reqs3 = [metadataRequest "" "instance-life-cycle"] := by
    have h := getMetadata_trace net "" "instance-life-cycle"
    rw [h3] at h; exact h
  rcases e3 with _ | e3 <;>
    exact ⟨h1, by simp [GetEC2InstanceMetadata, h1, h2, h3],
      by simp [GetEC2InstanceMetadata, h1, h2, h3, hr3], by decide, by decide⟩

theorem empty_token_not_validated_witness :
    getIMDSToken netEmptyTok = ("", none, [tokenRequest]) ∧
    (GetEC2InstanceMetadata netEmptyTok).2.1 = none ∧
    (GetEC2InstanceMetadata netEmptyTok).2.2 =
      [tokenRequest, metadataRequest "" "instance-id",
        metadataRequest "" "instance-life-cycle"] ∧
    headerGet (metadataRequest "" "instance-id").headers
      "X-aws-ec2-metadata-token" = some "" ∧
    headerGet (metadataRequest "" "instance-life-cycle").headers
      "X-aws-ec2-metadata-token" = some "" :=
  empty_token_not_validated netEmptyTok "i-1234567890abcdef0" (by decide) (by decide)

theorem getMetadataFromURL_corresponds (net netT : Network)
    (serverURL tok path : String)
    (h : netT (testMetadataRequest serverURL tok path) = net (metadataRequest tok path)) :
    (getMetadataFromURL netT tok serverURL path).1 = (getMetadata net tok path).1 ∧
    (getMetadataFromURL netT tok serverURL path).2.1 = (getMetadata net tok path).2.1 := by
  unfold getMetadataFromURL getMetadata
  rw [h]
  rcases net (metadataRequest tok path) with e | ⟨code, body⟩
  · exact ⟨rfl, rfl⟩
  · by_cases hc : code ≠ 200 <;> rcases body with e | s <;> simp [hc]

/-- C9: on any network where corresponding requests (same method and
headers, production host vs `serverURL`) receive identical responses,
`testGetEC2InstanceMetadata` has the same error outcome (an error occurs
in one iff it occurs in the other) as `GetEC2InstanceMetadata`, and the
maps carry the same values under the key renaming `instance-id` ↦
`alpha.eksctl.io/instance-id`, `instance-lifecycle` ↦ `node-lifecycle`
(in particular one map is nil iff the other is). -/
theorem test_variant_matches_production (net netT : Network) (serverURL : String)
    (htok : netT (testTokenRequest serverURL) = net tokenRequest)
    (hmd : ∀ token path, netT (testMetadataRequest serverURL token path)
        = net (metadataRequest token path)) :
    ((testGetEC2InstanceMetadata netT serverURL).2.1.isSome
        = (GetEC2InstanceMetadata net).2.1.isSome) ∧
    ((testGetEC2InstanceMetadata netT serverURL).1.map
        (fun m => (mapGet m "instance-id", mapGet m "instance-lifecycle"))
      = (GetEC2InstanceMetadata net).1.map
        (fun m => (mapGet m "alpha.eksctl.io/instance-id", mapGet m "node-lifecycle"))) := by
  rcases hA : net tokenRequest with e | ⟨code, body⟩
  · simp [testGetEC2InstanceMetadata, GetEC2InstanceMetadata, getIMDSToken, htok, hA]
  · by_cases hc : code = 200
    · subst hc
      rcases body with e | tok
      · simp [testGetEC2InstanceMetadata, GetEC2InstanceMetadata, getIMDSToken, htok, hA]
      · have hid := getMetadataFromURL_corresponds net netT serverURL tok "instance-id"
          (hmd tok "instance-id")
        have hlc := getMetadataFromURL_corresponds net netT serverURL tok
          "instance-life-cycle" (hmd tok "instance-life-cycle")
        rcases h2 : getMetadata net tok "instance-id" with ⟨iid, e2, r2⟩
        rcases h2T : getMetadataFromURL netT tok serverURL "instance-id" with ⟨iidT, e2T, r2T⟩
        rw [h2, h2T] at hid
        obtain ⟨h21, h22⟩ := hid
        dsimp only at h21 h22
        subst h21
        subst h22
        rcases e2T with _ | e2T
        · rcases h3 : getMetadata net tok "instance-life-cycle" with ⟨lc, e3, r3⟩
          rcases h3T : getMetadataFromURL netT tok serverURL "instance-life-cycle"
            with ⟨lcT, e3T, r3T⟩
          rw [h3, h3T] at hlc
          obtain ⟨h31, h32⟩ := hlc
          dsimp only at h31 h32
          subst h31
          subst h32
          rcases e3T with _ | e3T <;>
            simp [testGetEC2InstanceMetadata, GetEC2InstanceMetadata, getIMDSToken,
              htok, hA, h2, h2T, h3, h3T, mapSet, mapGet]
        · simp [testGetEC2InstanceMetadata, GetEC2InstanceMetadata, getIMDSToken,
            htok, hA, h2, h2T]
    · simp [testGetEC2InstanceMetadata, GetEC2InstanceMetadata, getIMDSToken,
        htok, hA, hc]

theorem testTokenRequest_eq :
    testTokenRequest "http://169.254.169.254" = tokenRequest := by decide

theorem testMetadataRequest_eq (token path : String) :
    testMetadataRequest "http://169.254.169.254" token path
      = metadataRequest token path := by
  have h2 : ("http://169.254.169.254" ++ "/latest/meta-data/" : String)
      = "http://169.254.169.254/latest/meta-data/" := by decide
  simp only [testMetadataRequest, metadataRequest, ← String.append_assoc, h2]

theorem test_variant_matches_production_witness :
    ((testGetEC2InstanceMetadata netOK "http://169.254.169.254").2.1.isSome
        = (GetEC2InstanceMetadata netOK).2.1.isSome) ∧
    ((testGetEC2InstanceMetadata netOK "http://169.254.169.254").1.map
        (fun m => (mapGet m "instance-id", mapGet m "instance-lifecycle"))
      = (GetEC2InstanceMetadata netOK).1.map
        (fun m => (mapGet m "alpha.eksctl.io/instance-id", mapGet m "node-lifecycle"))) :=
  test_variant_matches_production netOK netOK "http://169.254.169.254"
    (by rw [testTokenRequest_eq]) (fun token path => by rw [testMetadataRequest_eq])

end Metadata
